import Mathlib

/-!
Verification of the linux-isolation-learning repository: a shallow embedding
of its network-namespace and PID-namespace example scripts, and proofs about
the claims of the specification.

The scripts drive the external `ip` tool via `subprocess.run`; we model an
execution environment as a function assigning a return code to every argv
list, and each script as the (return value, list of executed commands) it
produces under that environment.
-/

/-- Argv of an external command launched via `subprocess.run`. -/
abbrev Cmd := List String

/-- Embedding of `run cmd` (source name with an underscore) from `src/net_veth_example.py`: runs `cmd`,
returns `False` when the return code is nonzero and `True` otherwise.
The second component threads the list of commands executed so far. -/
def runCmd (env : Cmd → Int) (cmd : Cmd) (executed : List Cmd) :
    Bool × List Cmd :=
  (if env cmd != 0 then false else true, executed ++ [cmd])

/-- Local constant `namespace` of `setup_veth_network` (renamed: `namespace`
is a Lean keyword). -/
def nsName : String := "blue"

/-- Local constant `host_veth` of `setup_veth_network`. -/
def host_veth : String := "veth-host"

/-- Local constant `ns_veth` of `setup_veth_network`. -/
def ns_veth : String := "veth-blue"

/-- Local constant `host_ip` of `setup_veth_network`. -/
def host_ip : String := "10.0.0.1/24"

/-- Local constant `ns_ip` of `setup_veth_network`. -/
def ns_ip : String := "10.0.0.2/24"

/-- Embedding of `setup_veth_network` from `src/net_veth_example.py`.
Each `runCmd` call of the source appears in source order; the source
discards every `runCmd` result, which the embedding mirrors by binding
each Boolean to `_`.  Returns the pair (returned namespace name, commands
executed). -/
def setup_veth_network (env : Cmd → Int) : String × List Cmd :=
  let executed : List Cmd := []
  -- Step 1: Create network namespace 'blue'
  let (_, executed) := runCmd env ["ip", "netns", "add", nsName] executed
  -- Step 2: Create veth pair (virtual ethernet cable)
  let (_, executed) := runCmd env
    ["ip", "link", "add", host_veth, "type", "veth", "peer", "name", ns_veth]
    executed
  -- Step 3: Move veth-blue into blue namespace
  let (_, executed) := runCmd env
    ["ip", "link", "set", ns_veth, "netns", nsName] executed
  -- Step 4: Assign 10.0.0.1/24 to host side
  let (_, executed) := runCmd env
    ["ip", "addr", "add", host_ip, "dev", host_veth] executed
  -- Step 5: Bring up veth-host on host
  let (_, executed) := runCmd env ["ip", "link", "set", host_veth, "up"] executed
  -- Step 6: Assign 10.0.0.2/24 to namespace side
  let (_, executed) := runCmd env
    ["ip", "netns", "exec", nsName, "ip", "addr", "add", ns_ip, "dev", ns_veth]
    executed
  -- Step 7: Bring up veth-blue in namespace
  let (_, executed) := runCmd env
    ["ip", "netns", "exec", nsName, "ip", "link", "set", ns_veth, "up"] executed
  -- Step 8: Bring up loopback in namespace
  let (_, executed) := runCmd env
    ["ip", "netns", "exec", nsName, "ip", "link", "set", "lo", "up"] executed
  -- Show configuration
  let (_, executed) := runCmd env ["ip", "addr", "show", host_veth] executed
  let (_, executed) := runCmd env
    ["ip", "netns", "exec", nsName, "ip", "addr", "show", ns_veth] executed
  -- Connectivity test
  let (_, executed) := runCmd env
    ["ip", "netns", "exec", nsName, "ping", "-c", "3", "10.0.0.1"] executed
  let (_, executed) := runCmd env ["ping", "-c", "3", "10.0.0.2"] executed
  (nsName, executed)

/-- Embedding of `cleanup` from `src/net_veth_example.py`: it runs the single
command `ip netns del <namespace>` and discards the result. -/
def cleanup (env : Cmd → Int) (ns : String) (executed : List Cmd) : List Cmd :=
  (runCmd env ["ip", "netns", "del", ns] executed).2

/-- Commands of the eight provisioning steps of `setup_veth_network`,
in source order. -/
def vethSetupSteps : List Cmd :=
  [["ip", "netns", "add", nsName],
   ["ip", "link", "add", host_veth, "type", "veth", "peer", "name", ns_veth],
   ["ip", "link", "set", ns_veth, "netns", nsName],
   ["ip", "addr", "add", host_ip, "dev", host_veth],
   ["ip", "link", "set", host_veth, "up"],
   ["ip", "netns", "exec", nsName, "ip", "addr", "add", ns_ip, "dev", ns_veth],
   ["ip", "netns", "exec", nsName, "ip", "link", "set", ns_veth, "up"],
   ["ip", "netns", "exec", nsName, "ip", "link", "set", "lo", "up"]]

/-- Embedding of `setup_nat_network` from `src/net_internet_access.py`.
The function body ends after the "Set namespace IP" command: the source
file stops there, with no further statements and no return.  Its `run_cmd`
results are likewise discarded.  Returns the commands executed. -/
def setup_nat_network (env : Cmd → Int) : List Cmd :=
  let executed : List Cmd := []
  -- Create Namespace
  let (_, executed) := runCmd env ["ip", "netns", "add", "inet-test"] executed
  -- Create veth pair
  let (_, executed) := runCmd env
    ["ip", "link", "add", "veth-host-inet", "type", "veth", "peer", "name",
     "veth-inet"] executed
  -- Move veth to namespace
  let (_, executed) := runCmd env
    ["ip", "link", "set", "veth-inet", "netns", "inet-test"] executed
  -- Set host IP
  let (_, executed) := runCmd env
    ["ip", "addr", "add", "10.0.1.1/24", "dev", "veth-host-inet"] executed
  -- Bring up host veth
  let (_, executed) := runCmd env
    ["ip", "link", "set", "veth-host-inet", "up"] executed
  -- Set namespace IP
  let (_, executed) := runCmd env
    ["ip", "netns", "exec", "inet-test", "ip", "addr", "add", "10.0.1.2/24",
     "dev", "veth-inet"] executed
  executed

/-- Observable actions of the PID-namespace scripts and of the script entry
points: the effective-uid root check, a `clone` call, an `os.unshare` call,
and an external command. -/
inductive Act where
  | euidCheck : Act
  | cloneCall : Act
  | unshareNet : Act
  | cmd : Cmd → Act
  deriving DecidableEq, Repr

/-- Result of one run of a PID-namespace script: actions performed, value
returned by `main` (the process exit status via `sys.exit(main())`), the
errno reported on the error path (if any), and the pids passed to
`os.waitpid`, in order. -/
structure PidRunResult where
  trace : List Act
  exitCode : Int
  errReported : Option Nat
  waited : List Int
  deriving DecidableEq, Repr

/-- Embedding of `main` from `src/pid_namespace.py`, parameterised by the
outcome of the `libc.clone` call (`cloneRet`) and by the errno the kernel
would report (`errno`).  The script allocates the stack, clones once; on
`-1` it prints `clone failed: <strerror(errno)>` and returns 1 without
waiting; otherwise it waits for the child once and returns 0.  The entry
block is `sys.exit(main())` with no privilege check before it. -/
def pid_namespace_main (cloneRet : Int) (errno : Nat) : PidRunResult :=
  if cloneRet = -1 then
    { trace := [Act.cloneCall], exitCode := 1, errReported := some errno,
      waited := [] }
  else
    { trace := [Act.cloneCall], exitCode := 0, errReported := none,
      waited := [cloneRet] }

/-- Embedding of `main` from `src/pid_two.py`, parameterised by the outcomes
of the two `libc.clone` calls.  Both clone calls are issued before either
result is examined; then: if the first returned `-1`, print the error and
return 1; else if the second returned `-1`, print the error and return 1;
else wait for the first child, wait for the second child, return 0. -/
def pid_two_main (c1 c2 : Int) (errno : Nat) : PidRunResult :=
  let trace := [Act.cloneCall, Act.cloneCall]
  if c1 = -1 then
    { trace := trace, exitCode := 1, errReported := some errno, waited := [] }
  else if c2 = -1 then
    { trace := trace, exitCode := 1, errReported := some errno, waited := [] }
  else
    { trace := trace, exitCode := 0, errReported := none, waited := [c1, c2] }

/-- Children the clone-style primitive successfully created in a run of
`src/pid_two.py`: those clone results distinct from `-1`. -/
def createdChildren (c1 c2 : Int) : List Int :=
  (if c1 != -1 then [c1] else []) ++ (if c2 != -1 then [c2] else [])

/-- Outcome of the `os.execlp` call inside `child_fn`. -/
inductive ExecOutcome where
  | replaced : ExecOutcome
  | failed : ExecOutcome
  deriving DecidableEq, Repr

/-- How a Python callable passed to a ctypes callback can end. -/
inductive PyOutcome where
  | imageReplaced : PyOutcome
  | raised : PyOutcome
  | returned : Int → PyOutcome
  deriving DecidableEq, Repr

/-- Embedding of `child_fn` from `src/pid_namespace.py` and `src/pid_two.py`:
it prints the pid and ppid, calls `os.execlp`, and then has `return 1`.
Python's `os.execlp` does not return on failure: it raises `OSError`, so on
a failed exec `child_fn` ends by an uncaught exception and the `return 1`
statement is never reached; on success the process image is replaced. -/
def child_fn : ExecOutcome → PyOutcome
  | ExecOutcome.replaced => PyOutcome.imageReplaced
  | ExecOutcome.failed => PyOutcome.raised

/-- Status the `ctypes.CFUNCTYPE(c_int, c_void_p)` callback hands back to
its caller (`clone`, which makes it the child's exit status), per the
documented ctypes semantics: an uncaught exception in the callable is
printed and the default result `0` of the `c_int` return type is returned;
a normal `return n` yields `n`; a replaced image never returns. -/
def callbackStatus : PyOutcome → Option Int
  | PyOutcome.imageReplaced => none
  | PyOutcome.raised => some 0
  | PyOutcome.returned n => some n

/-- Embedding of the entry block of `src/net_veth_example.py`:
`if os.geteuid() != 0`, print an error and `sys.exit(1)` before anything
else runs; otherwise `sys.exit(main())`, where `main` runs
`setup_veth_network` and, on the only terminating path (KeyboardInterrupt
out of the sleep loop), runs `cleanup(namespace)` and returns `None`
(exit status 0).  Returns the action trace and the exit status. -/
def net_veth_entry (euid : Nat) (env : Cmd → Int) : List Act × Int :=
  if euid != 0 then ([Act.euidCheck], 1)
  else
    let (ns, executed) := setup_veth_network env
    (Act.euidCheck :: (cleanup env ns executed).map Act.cmd, 0)

/-- Embedding of the entry block and `main` of
`src/net_namespace_unshare.py`: `if os.geteuid() != 0`, print an error and
`sys.exit(1)` first; otherwise `main` runs `readlink` on the net-namespace
link, calls `os.unshare(os.CLONE_NEWNET)` (its `PermissionError` handler is
unreachable once euid is 0), runs `readlink` again and `ip addr show`, and
returns 0. -/
def net_unshare_entry (euid : Nat) (pid : Nat) : List Act × Int :=
  if euid != 0 then ([Act.euidCheck], 1)
  else
    ([Act.euidCheck,
      Act.cmd ["readlink", "/proc/" ++ toString pid ++ "/ns/net"],
      Act.unshareNet,
      Act.cmd ["readlink", "/proc/" ++ toString pid ++ "/ns/net"],
      Act.cmd ["ip", "addr", "show"]], 0)

/-- Tells whether an action creates a namespace: a `clone` with
`CLONE_NEWPID`, an `os.unshare(CLONE_NEWNET)`, or an `ip netns add`
command (possibly under `sudo`). -/
def createsNamespace : Act → Bool
  | Act.cloneCall => true
  | Act.unshareNet => true
  | Act.cmd ("ip" :: "netns" :: "add" :: _) => true
  | Act.cmd ("sudo" :: "ip" :: "netns" :: "add" :: _) => true
  | Act.cmd _ => false
  | Act.euidCheck => false

/-- Abstract state of the host's network configuration: the named network
namespaces, the interfaces living in the host namespace, the interfaces
living in each named namespace, and the veth peerings. -/
structure NetState where
  namespaces : List String
  hostIfaces : List String
  nsIfaces : List (String × String)
  vethPairs : List (String × String)
  deriving DecidableEq, Repr

/-- NetState with no named namespace and no veth interface. -/
def NetState.empty : NetState := ⟨[], [], [], []⟩

/-- Veth peers of interface `i` under the recorded peerings. -/
def peersOf (pairs : List (String × String)) (i : String) : List String :=
  pairs.filterMap fun p =>
    if p.1 = i then some p.2 else if p.2 = i then some p.1 else none

/-- Modelled from the spec: effect of the `ip` commands used by
`src/net_veth_example.py` on the abstract network state, which the
repository delegates to the external `ip(8)` tool.  `ip netns add` creates
a namespace; `ip link add … type veth peer name …` creates both ends in the
host namespace and records the peering; `ip link set X netns N` moves a
host interface into namespace `N`; `ip netns del N` removes the namespace
and, as the spec defines, transitively removes any veth end still living
inside it together with its peer wherever that peer lives; address
assignment, link up/down and `ip netns exec` do not create or destroy
namespaces or interfaces and leave this abstraction unchanged.  Returns the
new state and whether the command succeeded. -/
def applyIp (s : NetState) : Cmd → NetState × Bool
  | ["ip", "netns", "add", n] =>
    if s.namespaces.contains n then (s, false)
    else ({ s with namespaces := s.namespaces ++ [n] }, true)
  | ["ip", "link", "add", a, "type", "veth", "peer", "name", b] =>
    if s.hostIfaces.contains a || s.hostIfaces.contains b then (s, false)
    else ({ s with hostIfaces := s.hostIfaces ++ [a, b],
                   vethPairs := s.vethPairs ++ [(a, b)] }, true)
  | ["ip", "link", "set", x, "netns", n] =>
    if s.hostIfaces.contains x && s.namespaces.contains n then
      ({ s with hostIfaces := s.hostIfaces.filter (fun i => i != x),
                nsIfaces := s.nsIfaces ++ [(n, x)] }, true)
    else (s, false)
  | ["ip", "netns", "del", n] =>
    if s.namespaces.contains n then
      let inside := (s.nsIfaces.filter fun p => p.1 = n).map Prod.snd
      let doomed := inside ++ (inside.map (peersOf s.vethPairs)).flatten
      ({ namespaces := s.namespaces.filter (fun m => m != n),
         hostIfaces := s.hostIfaces.filter (fun i => !doomed.contains i),
         nsIfaces := s.nsIfaces.filter
           (fun p => p.1 != n && !doomed.contains p.2),
         vethPairs := s.vethPairs.filter
           (fun p => !doomed.contains p.1 && !doomed.contains p.2) }, true)
    else (s, false)
  | _ => (s, true)

/-- Runs one command against the abstract network state under an oracle
`ok` describing which commands the external environment lets succeed: a
command vetoed by the oracle fails and leaves the state unchanged. -/
def stepIp (ok : Cmd → Bool) (s : NetState) (c : Cmd) : NetState × Bool :=
  if ok c then applyIp s c else (s, false)

/-- Runs a list of commands in order against the abstract network state. -/
def runIp (ok : Cmd → Bool) (s : NetState) (cs : List Cmd) : NetState :=
  cs.foldl (fun st c => (stepIp ok st c).1) s

/-- Oracle of the step-3 failure scenario: the kernel rejects exactly the
move-into-namespace command, every other command is allowed to take its
normal effect. -/
def step3Fails : Cmd → Bool :=
  fun c => c != ["ip", "link", "set", ns_veth, "netns", nsName]

/-- Return-code environment of the same scenario: the move-into-namespace
command exits nonzero, every other command exits 0. -/
def step3FailEnv : Cmd → Int :=
  fun c => if c = ["ip", "link", "set", ns_veth, "netns", nsName] then 2 else 0

/-- Return-code environment where step 1 (`ip netns add blue`) exits
nonzero and every other command exits 0. -/
def step1FailEnv : Cmd → Int :=
  fun c => if c = ["ip", "netns", "add", nsName] then 1 else 0

/-- Network state after running the whole `setup_veth_network` command
sequence with step 3 failing, followed by `cleanup`'s single
`ip netns del blue` command. -/
def stateAfterStep3FailThenCleanup : NetState :=
  runIp step3Fails NetState.empty
    (cleanup step3FailEnv nsName (setup_veth_network step3FailEnv).2)

/-- Network state after a fully successful `setup_veth_network` run followed
by `cleanup`. -/
def stateAfterCleanSetupThenCleanup : NetState :=
  runIp (fun _ => true) NetState.empty
    (cleanup (fun _ => 0) nsName (setup_veth_network (fun _ => 0)).2)

/-- The full command trace of `setup_veth_network`, spelled out: the eight
provisioning steps followed by the two `show` commands and the two `ping`
probes. -/
def fullVethTrace : List Cmd :=
  vethSetupSteps ++
  [["ip", "addr", "show", host_veth],
   ["ip", "netns", "exec", nsName, "ip", "addr", "show", ns_veth],
   ["ip", "netns", "exec", nsName, "ping", "-c", "3", "10.0.0.1"],
   ["ping", "-c", "3", "10.0.0.2"]]

/-- The command trace of `setup_nat_network`, spelled out: the six commands
the truncated source actually issues. -/
def natTrace : List Cmd :=
  [["ip", "netns", "add", "inet-test"],
   ["ip", "link", "add", "veth-host-inet", "type", "veth", "peer", "name",
    "veth-inet"],
   ["ip", "link", "set", "veth-inet", "netns", "inet-test"],
   ["ip", "addr", "add", "10.0.1.1/24", "dev", "veth-host-inet"],
   ["ip", "link", "set", "veth-host-inet", "up"],
   ["ip", "netns", "exec", "inet-test", "ip", "addr", "add", "10.0.1.2/24",
    "dev", "veth-inet"]]

/-- Tells whether a command configures an interface inside namespace `n`,
i.e. runs under `ip netns exec n`. -/
def insideCfg (n : String) : Cmd → Bool
  | "ip" :: "netns" :: "exec" :: m :: _ => m == n
  | _ => false

/-- Tells whether a command moves interface `x` into namespace `n`. -/
def movesIntoNs (x n : String) (c : Cmd) : Bool :=
  c == ["ip", "link", "set", x, "netns", n]

/-- Command `c` occurs in trace `t` strictly before every command
satisfying `p`. -/
def precedesAll (c : Cmd) (p : Cmd → Bool) (t : List Cmd) : Prop :=
  c ∈ t ∧ ∀ i : Fin t.length, p (t.get i) → t.indexOf c < i.val

instance precedesAllDec (c : Cmd) (p : Cmd → Bool) (t : List Cmd) :
    Decidable (precedesAll c p t) := by
  unfold precedesAll; infer_instance

/-- Splits a character list at every occurrence of `c` (the pieces, in
order, with the separators removed). -/
def splitOnChar (c : Char) : List Char → List (List Char)
  | [] => [[]]
  | x :: xs =>
    if x = c then [] :: splitOnChar c xs
    else
      match splitOnChar c xs with
      | [] => [[x]]
      | y :: ys => (x :: y) :: ys

/-- Dotted-quad octets of the address part of a `A.B.C.D/M` string. -/
def addrOctets (s : String) : List (List Char) :=
  splitOnChar '.' ((splitOnChar '/' s.data).headD [])

/-- Mask length of a `A.B.C.D/M` string, as characters. -/
def maskBits (s : String) : List Char :=
  (splitOnChar '/' s.data).getD 1 []

/-- Subnet of a `A.B.C.D/24` string: its first three octets. -/
def subnet24 (s : String) : List (List Char) :=
  (addrOctets s).take 3

/-- Whatever return codes the external commands produce,
`setup_veth_network` returns the namespace name and executes exactly the
fixed command sequence `fullVethTrace`: every `run_cmd` result is
discarded, so nothing downstream depends on it. -/
theorem setup_veth_network_eq (env : Cmd → Int) :
    setup_veth_network env = (nsName, fullVethTrace) := rfl

/-- Whatever return codes the external commands produce,
`setup_nat_network` executes exactly the fixed command sequence
`natTrace`. -/
theorem setup_nat_network_eq (env : Cmd → Int) :
    setup_nat_network env = natTrace := rfl

/-- C1, counterexample.  Run `setup_veth_network` in an environment where
step 1 (`ip netns add blue`) exits nonzero, so `run_cmd` reports `False`
for it.  The later steps are still executed (step 2 is in the trace), no
teardown command (`ip netns del blue`) is ever issued, and the function
returns the namespace name normally instead of re-surfacing the error —
contradicting the claim that a failing step aborts the remainder and hands
the partial state to the Teardown Coordinator. -/
theorem c1_counterexample :
    (runCmd step1FailEnv ["ip", "netns", "add", nsName] []).1 = false ∧
    ["ip", "link", "add", host_veth, "type", "veth", "peer", "name", ns_veth]
      ∈ (setup_veth_network step1FailEnv).2 ∧
    ((setup_veth_network step1FailEnv).2.all
      (fun c => c != ["ip", "netns", "del", nsName])) = true ∧
    (setup_veth_network step1FailEnv).1 = nsName := by
  decide

/-- C1, amended: a failing provisioning step does not abort the remainder
and does not invoke the Teardown Coordinator — `run_cmd` merely prints the
error and returns `False`, every call site of `setup_veth_network` discards
that result, the full fixed command sequence is executed under every
environment, no `ip netns del` command is issued by setup, and the function
returns the namespace name normally (`cleanup` runs only from `main`'s
KeyboardInterrupt handler). -/
theorem c1_amended :
    ∀ env : Cmd → Int,
      (setup_veth_network env).2 = fullVethTrace ∧
      ((setup_veth_network env).2.all
        (fun c => c != ["ip", "netns", "del", nsName])) = true ∧
      (setup_veth_network env).1 = nsName := by
  intro env
  rw [setup_veth_network_eq]
  exact ⟨rfl, by decide, rfl⟩

/-- C2, counterexample.  In the run where step 3 (move-into-namespace)
fails and every other command takes its spec-defined effect, invoking
`cleanup` (i.e. `ip netns del blue`) does delete the namespace, but the
host-side interface `veth-host` is still present in the host namespace
afterwards — contradicting the claim that teardown leaves no residual
host-side interface. -/
theorem c2_counterexample :
    step3Fails ["ip", "link", "set", ns_veth, "netns", nsName] = false ∧
    stateAfterStep3FailThenCleanup.namespaces = [] ∧
    host_veth ∈ stateAfterStep3FailThenCleanup.hostIfaces := by
  decide

/-- C2, amended: after a step-3 failure, `cleanup` leaves no residual
network namespace, but both veth ends — including the host-side
`veth-host` — remain in the host namespace, because `cleanup` only deletes
the namespace and the pair never moved into it; when step 3 succeeded,
the same teardown removes the namespace and, transitively, both veth
ends. -/
theorem c2_amended :
    stateAfterStep3FailThenCleanup =
      { namespaces := [], hostIfaces := [host_veth, ns_veth], nsIfaces := [],
        vethPairs := [(host_veth, ns_veth)] } ∧
    stateAfterCleanSetupThenCleanup = NetState.empty := by
  decide

/-- C3: on the path of `src/pid_two.py` where the first clone fails with
`-1` and the second clone successfully creates child 100, `main` prints
the error and returns 1 without issuing any `waitpid` — child 100 was
created but receives no wait call, contradicting the claim that every
successfully created child is waited exactly once on every path. -/
theorem c3_unwaited_child :
    pid_two_main (-1) 100 11 =
      { trace := [Act.cloneCall, Act.cloneCall], exitCode := 1,
        errReported := some 11, waited := [] } ∧
    100 ∈ createdChildren (-1) 100 ∧
    (pid_two_main (-1) 100 11).waited.count 100 = 0 := by
  decide

/-- C4: whenever the clone call of `src/pid_namespace.py` returns `-1`,
`main` reports the failure with the kernel's errno attached, returns the
nonzero status 1 (which `sys.exit` makes the process exit status), and
performs no wait call. -/
theorem c4_clone_fail_no_wait :
    ∀ errno : Nat,
      (pid_namespace_main (-1) errno).errReported = some errno ∧
      (pid_namespace_main (-1) errno).exitCode = 1 ∧
      (pid_namespace_main (-1) errno).exitCode ≠ 0 ∧
      (pid_namespace_main (-1) errno).waited = [] := by
  intro errno
  exact ⟨rfl, rfl, by show (1 : Int) ≠ 0; decide, rfl⟩

/-- C5: when the `os.execlp` image replacement inside `child_fn` fails, the
routine ends by an uncaught `OSError` — the `return 1` statement is never
reached — and the ctypes callback layer turns that exception into the
default return value 0, so the entry routine returns to its caller with
status 0, not with a distinguishable failure status, contradicting the
claim. -/
theorem c5_exec_fail_status_zero :
    child_fn ExecOutcome.failed = PyOutcome.raised ∧
    (∀ n : Int, child_fn ExecOutcome.failed ≠ PyOutcome.returned n) ∧
    callbackStatus (child_fn ExecOutcome.failed) = some 0 := by
  refine ⟨rfl, ?_, rfl⟩
  intro n h
  exact PyOutcome.noConfusion h

/-- C6: `setup_nat_network` stops after assigning the namespace IP — under
every environment it issues exactly the six commands of `natTrace`, none
of which brings up the namespace-side veth end, enables IP forwarding
(no `sysctl`/write to `ip_forward`), or installs a masquerade rule (no
`iptables`/`MASQUERADE`) — contradicting the claim that the full step-6
NAT configuration is completed. -/
theorem c6_nat_setup_incomplete :
    ∀ env : Cmd → Int,
      setup_nat_network env = natTrace ∧
      ((setup_nat_network env).all fun c =>
        c.head? == some "ip" &&
        !(c.contains "MASQUERADE" || c.contains "iptables" ||
          c.contains "sysctl" || c.contains "net.ipv4.ip_forward=1") &&
        c != ["ip", "netns", "exec", "inet-test", "ip", "link", "set",
              "veth-inet", "up"]) = true := by
  intro env
  rw [setup_nat_network_eq]
  exact ⟨rfl, by decide⟩

/-- C7: in every run of `setup_veth_network` and of `setup_nat_network`,
the `ip netns add` command occurs strictly before every command that
configures an interface inside the namespace (`ip netns exec …`), and the
veth-pair creation command occurs strictly before the command that moves
the namespace-side end into the namespace; both kinds of later command do
occur in the traces. -/
theorem c7_setup_ordering :
    ∀ env : Cmd → Int,
      precedesAll ["ip", "netns", "add", nsName] (insideCfg nsName)
        (setup_veth_network env).2 ∧
      precedesAll
        ["ip", "link", "add", host_veth, "type", "veth", "peer", "name",
         ns_veth]
        (movesIntoNs ns_veth nsName) (setup_veth_network env).2 ∧
      ((setup_veth_network env).2.any (insideCfg nsName)) = true ∧
      ((setup_veth_network env).2.any (movesIntoNs ns_veth nsName)) = true ∧
      precedesAll ["ip", "netns", "add", "inet-test"] (insideCfg "inet-test")
        (setup_nat_network env) ∧
      precedesAll
        ["ip", "link", "add", "veth-host-inet", "type", "veth", "peer",
         "name", "veth-inet"]
        (movesIntoNs "veth-inet" "inet-test") (setup_nat_network env) ∧
      ((setup_nat_network env).any (insideCfg "inet-test")) = true ∧
      ((setup_nat_network env).any (movesIntoNs "veth-inet" "inet-test"))
        = true := by
  intro env
  rw [setup_veth_network_eq, setup_nat_network_eq]
  decide

/-- C8: `setup_veth_network` statically fixes the namespace name `blue`,
the veth names `veth-host`/`veth-blue`, and the addresses `10.0.0.1/24`
(host side) and `10.0.0.2/24` (namespace side); the two addresses are
distinct yet lie in the same /24 subnet; both veth ends and the
namespace's loopback are brought up; and no command of the sequence
invokes any dynamic address protocol client (dhcp). -/
theorem c8_static_addressing :
    ∀ env : Cmd → Int,
      (setup_veth_network env).1 = "blue" ∧
      ["ip", "link", "add", "veth-host", "type", "veth", "peer", "name",
       "veth-blue"] ∈ (setup_veth_network env).2 ∧
      ["ip", "addr", "add", "10.0.0.1/24", "dev", "veth-host"]
        ∈ (setup_veth_network env).2 ∧
      ["ip", "netns", "exec", "blue", "ip", "addr", "add", "10.0.0.2/24",
       "dev", "veth-blue"] ∈ (setup_veth_network env).2 ∧
      ["ip", "link", "set", "veth-host", "up"] ∈ (setup_veth_network env).2 ∧
      ["ip", "netns", "exec", "blue", "ip", "link", "set", "veth-blue", "up"]
        ∈ (setup_veth_network env).2 ∧
      ["ip", "netns", "exec", "blue", "ip", "link", "set", "lo", "up"]
        ∈ (setup_veth_network env).2 ∧
      host_ip ≠ ns_ip ∧
      addrOctets host_ip ≠ addrOctets ns_ip ∧
      subnet24 host_ip = subnet24 ns_ip ∧
      maskBits host_ip = ['2', '4'] ∧
      maskBits ns_ip = ['2', '4'] ∧
      ((setup_veth_network env).2.all fun c =>
        !(c.contains "dhcp" || c.contains "dhclient")) = true := by
  intro env
  rw [setup_veth_network_eq]
  decide

/-- C9, counterexample.  The entry of `src/pid_namespace.py` is
`sys.exit(main())` with no effective-uid check: its action trace contains
the namespace-creating `clone` call but no privilege check at all, so this
entry point does not detect missing privilege before creating a namespace —
contradicting the claim that every namespace-creating entry point does. -/
theorem c9_counterexample :
    Act.cloneCall ∈ (pid_namespace_main (-1) 13).trace ∧
    createsNamespace Act.cloneCall = true ∧
    Act.euidCheck ∉ (pid_namespace_main (-1) 13).trace := by
  decide

/-- C9, amended: the network-script entry points (`net_veth_example.py`,
`net_namespace_unshare.py`) check `os.geteuid() != 0` first and exit with
status 1 before performing any other action; the PID-namespace entry points
perform no privilege pre-check and instead discover the failure mid-setup,
from `clone` returning `-1`, reporting the errno and exiting nonzero. -/
theorem c9_amended :
    ∀ (env : Cmd → Int) (pid euid : Nat), euid ≠ 0 →
      net_veth_entry euid env = ([Act.euidCheck], 1) ∧
      net_unshare_entry euid pid = ([Act.euidCheck], 1) ∧
      Act.euidCheck ∉ (pid_namespace_main (-1) 13).trace ∧
      (pid_namespace_main (-1) 13).errReported = some 13 ∧
      (pid_namespace_main (-1) 13).exitCode = 1 := by
  intro env pid euid h
  have hb : (euid != 0) = true := by simp [h]
  refine ⟨?_, ?_, by decide, rfl, rfl⟩
  · rw [net_veth_entry, hb]; rfl
  · rw [net_unshare_entry, hb]; rfl

/-- C9, witness for the amended theorem, at euid 1000, pid 1 and the
all-succeed environment. -/
theorem c9_amended_witness :
    net_veth_entry 1000 (fun _ => 0) = ([Act.euidCheck], 1) ∧
    net_unshare_entry 1000 1 = ([Act.euidCheck], 1) ∧
    Act.euidCheck ∉ (pid_namespace_main (-1) 13).trace ∧
    (pid_namespace_main (-1) 13).errReported = some 13 ∧
    (pid_namespace_main (-1) 13).exitCode = 1 :=
  c9_amended (fun _ => 0) 1 1000 (by decide)

/-- C10: the value `setup_veth_network` returns is the namespace name
`"blue"` under every environment — in particular it is the same whatever
return codes the eight provisioning commands produce, because every call
site discards the `run_cmd` result. -/
theorem c10_return_blue_always :
    ∀ env env' : Cmd → Int,
      (setup_veth_network env).1 = "blue" ∧
      (setup_veth_network env).1 = (setup_veth_network env').1 := by
  intro env env'
  exact ⟨rfl, rfl⟩
